import Mathlib

/-!
Verification development for the PDF table-extraction repository
(`app.py`, `utils.py`).  The Python source is shallowly embedded:

* `merge_cross_page_tables` (app.py) — filename/CSV parsing, the stable
  page sort, and the index-based merge sweep (including its in-place
  update of the scanned list) are reproduced exactly; the while loop is
  given a fuel argument equal to the list length, which the loop can
  never exhaust since the index grows by one per iteration.
* `process_pdf_to_data` (utils.py) — per-page classification, zoom
  choice, native token scaling and the OCR branch (with the engine
  modelled as a fallible oracle: `none` stands for a raised exception).
* the token-metadata fill pass of `main` (app.py).

Strings are handled through their character lists. `pyReplace`,
`pySplit`, `pyStrip` and `parseNatDigits` model Python's
`str.replace` (all occurrences, non-overlapping, left to right, for a
nonempty pattern — the only pattern used is ".csv"), `str.split` with an
explicit single separator, `str.strip`, and `int()` on the nonnegative
digit strings produced by the repository's filename convention.
`parseCsv`/`dfToCsv` model `pd.read_csv`/`DataFrame.to_csv(index=False)`
on the plain comma/newline CSV fragment the pipeline exchanges (blank
lines skipped, no quoting), with a parse failure for empty input.
-/

/-- One replacement step list: replaces every non-overlapping occurrence of
`pat` (nonempty) in the character list, left to right.  `fuel` bounds the
recursion; each step consumes at least one character, so `fuel = s.length`
is always enough. -/
def replaceFuel (pat rep : List Char) (fuel : Nat) (s : List Char) : List Char :=
  match fuel, s with
  | 0, s => s
  | _ + 1, [] => []
  | fuel + 1, c :: cs =>
    if pat ≠ [] ∧ pat.isPrefixOf (c :: cs) then
      rep ++ replaceFuel pat rep fuel ((c :: cs).drop pat.length)
    else
      c :: replaceFuel pat rep fuel cs

/-- Python `s.replace(pat, rep)` for a nonempty `pat` (the code only uses
pattern ".csv"). -/
def pyReplace (s pat rep : String) : String :=
  ⟨replaceFuel pat.data rep.data s.data.length s.data⟩

/-- Python `s.split(sep)` on a character list for a one-character separator:
splits at every occurrence, keeping empty pieces. -/
def splitOnCharList (sep : Char) : List Char → List (List Char)
  | [] => [[]]
  | c :: cs =>
    match splitOnCharList sep cs, decide (c = sep) with
    | r, true => [] :: r
    | [], false => [[c]]
    | h :: t, false => (c :: h) :: t

/-- Python `s.split(sep)` for a one-character separator string. -/
def pySplit (sep : Char) (s : String) : List String :=
  (splitOnCharList sep s.data).map (fun l => ⟨l⟩)

/-- Python `int()` restricted to nonnegative all-digit strings (the shape the
repository's `Page_<NN>_Table_<MM>.csv` convention produces); anything else
raises, i.e. yields `none`. -/
def parseNatDigits (s : String) : Option Nat :=
  if s.data ≠ [] ∧ s.data.all (fun c => c.isDigit) then
    some (s.data.foldl (fun a c => a * 10 + (c.toNat - 48)) 0)
  else
    none

/-- Python `s.strip()`: removes leading and trailing whitespace. -/
def pyStrip (s : String) : String :=
  ⟨((s.data.dropWhile Char.isWhitespace).reverse.dropWhile Char.isWhitespace).reverse⟩

/-- A parsed CSV table: ordered column headers and ordered rows, as
`pd.read_csv` produces for the plain comma/newline fragment. -/
structure Df where
  columns : List String
  rows : List (List String)
deriving DecidableEq, Inhabited, Repr

/-- `pd.read_csv(io.StringIO(content))` on the plain CSV fragment: blank
lines are skipped; an input with no remaining line raises
(`EmptyDataError`), i.e. yields `none`; the first line is the header. -/
def parseCsv (content : String) : Option Df :=
  match (pySplit '\n' content).filter (fun l => l ≠ "") with
  | [] => none
  | header :: rest =>
    some { columns := pySplit ',' header, rows := rest.map (fun r => pySplit ',' r) }

/-- `DataFrame.to_csv(index=False)`: header line then rows, comma-joined,
each line newline-terminated. -/
def dfToCsv (df : Df) : String :=
  String.intercalate "\n" ((df.columns :: df.rows).map (String.intercalate ",")) ++ "\n"

/-- One element of `tables_data` in `merge_cross_page_tables`:
`{'fname': fname, 'page': page_num, 'df': df}`. -/
structure Entry where
  fname : String
  page : Nat
  df : Df
deriving DecidableEq, Inhabited, Repr

/-- The parse step for a single `(fname, content)` pair (the body of the
`try` in the first loop of `merge_cross_page_tables`):
`parts = fname.replace('.csv', '').split('_'); page_num = int(parts[1]);
df = pd.read_csv(...)`.  Any failure (missing `parts[1]`, non-numeric page,
unparseable CSV) yields `none`, modelling the silent `except: pass`. -/
def parseEntry (fname content : String) : Option Entry :=
  match (pySplit '_' (pyReplace fname ".csv" "")).get? 1 with
  | none => none
  | some s =>
    match parseNatDigits s, parseCsv content with
    | some p, some df => some { fname := fname, page := p, df := df }
    | _, _ => none

/-- The first loop of `merge_cross_page_tables`: parse every pair, silently
dropping the failures. -/
def parseEntries (input : List (String × String)) : List Entry :=
  input.filterMap (fun e => parseEntry e.1 e.2)

/-- `tables_data.sort(key=lambda x: x['page'])`: Python's stable ascending
sort, realised by stable insertion sort on the page key. -/
def sortByPage (l : List Entry) : List Entry :=
  List.insertionSort (fun a b => a.page ≤ b.page) l

/-- The merge heuristics of `merge_cross_page_tables`:
`is_consecutive and is_same_cols and headers_match`. -/
def mergeCond (current next : Entry) : Bool :=
  (next.page == current.page + 1)
    && (current.df.columns.length == next.df.columns.length)
    && (current.df.columns == next.df.columns)

/-- `pd.concat([current['df'], next_table['df']], ignore_index=True)` in the
equal-columns case in which the code invokes it (the call is guarded by
`headers_match`). -/
def dfConcat (a b : Df) : Df :=
  { columns := a.columns, rows := a.rows ++ b.rows }

/-- The `while i < len(tables_data)` sweep of `merge_cross_page_tables`,
verbatim: `current = tables_data[i]`; when a next table exists and the
heuristics hold, the concatenated frame is stored back into
`tables_data[i]` and the loop continues at `i + 1` (so `current` is
re-read from the list there); otherwise `(current['fname'],
current['df'].to_csv(index=False))` is appended to the results.  `fuel`
only bounds the recursion: the index grows by one per iteration, so
`fuel = tables_data.length - i` iterations always reach the exit. -/
def mergeLoop (fuel : Nat) (tables : List Entry) (i : Nat)
    (acc : List (String × String)) : List (String × String) :=
  match fuel with
  | 0 => acc
  | fuel + 1 =>
    if i < tables.length then
      let current := tables.getD i default
      if i + 1 < tables.length then
        let next := tables.getD (i + 1) default
        if mergeCond current next then
          mergeLoop fuel (tables.set i { current with df := dfConcat current.df next.df })
            (i + 1) acc
        else
          mergeLoop fuel tables (i + 1) (acc ++ [(current.fname, dfToCsv current.df)])
      else
        mergeLoop fuel tables (i + 1) (acc ++ [(current.fname, dfToCsv current.df)])
    else acc

/-- `merge_cross_page_tables`: parse, stable-sort by page, sweep.  (The
early `return []` for an empty input coincides with the sweep's result on
an empty list.) -/
def mergeCrossPageTables (input : List (String × String)) : List (String × String) :=
  let td := sortByPage (parseEntries input)
  mergeLoop td.length td 0 []

/-- What the sweep emits for one finished entry. -/
def emitEntry (e : Entry) : String × String :=
  (e.fname, dfToCsv e.df)

example : parseEntry "Page_03_Table_01.csv" "A,B\n1,2\n3,4\n" =
    some { fname := "Page_03_Table_01.csv", page := 3,
           df := { columns := ["A", "B"], rows := [["1", "2"], ["3", "4"]] } } := by
  decide

example : parseEntry "Table.csv" "A\n1\n" = none := by decide

example :
    mergeCrossPageTables
      [("Page_03_Table_01.csv", "A,B\n1,2\n3,4\n"),
       ("Page_04_Table_01.csv", "A,B\n5,6\n7,8\n9,10\n")] =
    [("Page_04_Table_01.csv", "A,B\n5,6\n7,8\n9,10\n")] := by
  decide

/-!
Embedding of `process_pdf_to_data` (utils.py).  A page of the input
document is abstracted by what the external PDF library reports for it:
its extracted text, its embedded-image count, the width of its default
raster, its text-layer word boxes, and the outcome of the external OCR
engine on its rendered image (`none` models `pytesseract` raising, which
the code catches and logs).
-/

/-- One word box from `page.get_text("words")`: `w[0] .. w[3]` are the
bounding-box coordinates in the text layer's coordinate space, `w[4]` the
word text. -/
structure NativeWord where
  x0 : ℚ
  y0 : ℚ
  x1 : ℚ
  y1 : ℚ
  text : String
deriving DecidableEq, Inhabited, Repr

/-- One entry of the `pytesseract.image_to_data` dictionary: parallel
`text`, `left`, `top`, `width`, `height` values for one recognised item. -/
structure OcrItem where
  text : String
  left : ℤ
  top : ℤ
  width : ℤ
  height : ℤ
deriving DecidableEq, Inhabited, Repr

/-- Everything `process_pdf_to_data` observes about one page through the
external libraries. -/
structure Page where
  text : String
  imageCount : Nat
  defaultWidth : Nat
  nativeWords : List NativeWord
  ocrResult : Option (List OcrItem)
deriving DecidableEq, Inhabited, Repr

/-- A word token as written to the per-page JSON sidecar: text plus
`[x0, y0, x1, y1]` bounding box in the rendered raster's pixel space. -/
structure Token where
  text : String
  bbox : List ℚ
deriving DecidableEq, Inhabited, Repr

/-- The per-page artifact pair: the rendered image (by name) and the token
list stored in its JSON sidecar. -/
structure Artifact where
  imgName : String
  words : List Token
deriving DecidableEq, Inhabited, Repr

/-- The decision logic of `process_pdf_to_data` (section "B. Decision
Logic"): returns `(use_ocr, mode_label)`.  `char_count` is `len(text)`,
`has_images` is `len(page.get_images()) > 0`. -/
def classifyPage (text : String) (imageCount : Nat) : Bool × String :=
  let charCount := text.length
  let hasImages := imageCount > 0
  if charCount > 100 ∧ ¬hasImages then (false, "Native (Text)")
  else if charCount > 100 ∧ hasImages then (true, "OCR (Hybrid)")
  else (true, "OCR (Scanned)")

/-- The "Smart Zoom" choice: `zoom = 2.0` when `use_ocr and
default_pix.width < 1500`, else `zoom = 1.0`. -/
def chooseZoom (useOcr : Bool) (defaultWidth : Nat) : ℚ :=
  if useOcr ∧ defaultWidth < 1500 then 2 else 1

/-- Python `f"{n:03d}"` for nonnegative `n`: zero-pad to at least three
digits. -/
def pad3 (n : Nat) : String :=
  if n < 10 then "00" ++ toString n
  else if n < 100 then "0" ++ toString n
  else toString n

/-- The Native branch: each text-layer word box is scaled by the chosen
zoom, `{"bbox": [w[0]*zoom, w[1]*zoom, w[2]*zoom, w[3]*zoom], "text": w[4]}`. -/
def nativeTokens (ws : List NativeWord) (zoom : ℚ) : List Token :=
  ws.map (fun w =>
    { text := w.text, bbox := [w.x0 * zoom, w.y0 * zoom, w.x1 * zoom, w.y1 * zoom] })

/-- The OCR branch: on engine success each item's text is stripped and, when
nonempty, emitted with bbox `[x, y, x+w, y+h]` in the raster's own pixel
space; on engine failure (the `except` arm) the page's token list stays
empty. -/
def ocrTokens : Option (List OcrItem) → List Token
  | none => []
  | some items =>
    items.filterMap (fun it =>
      let t := pyStrip it.text
      if t ≠ "" then
        some { text := t,
               bbox := [(it.left : ℚ), (it.top : ℚ),
                        ((it.left + it.width : ℤ) : ℚ), ((it.top + it.height : ℤ) : ℚ)] }
      else none)

/-- The body of the page loop of `process_pdf_to_data` for 0-based page
`pageNum`: classify, choose the zoom, render `page_{pageNum:03d}.jpg`, and
extract the token list by the chosen mode. -/
def processPage (pageNum : Nat) (p : Page) : Artifact :=
  let cls := classifyPage p.text p.imageCount
  let useOcr := cls.1
  let zoom := chooseZoom useOcr p.defaultWidth
  let imgName := "page_" ++ pad3 pageNum ++ ".jpg"
  let words := if useOcr then ocrTokens p.ocrResult else nativeTokens p.nativeWords zoom
  { imgName := imgName, words := words }

/-- `process_pdf_to_data`: one artifact pair appended per page, in document
order (`for page_num, page in enumerate(doc)`). -/
def processPdfToData (pages : List Page) : List Artifact :=
  pages.enum.map (fun e => processPage e.1 e.2)

/-!
Embedding of the token-metadata fill pass of `main` (app.py): tokens are
loaded from a page's JSON sidecar, where the three positional fields may
be absent (`Option`), and the loop `for idx, token in enumerate(tokens)`
fills each absent field.
-/

/-- A token as loaded from JSON before inference: `span_num`, `line_num`,
`block_num` may be absent. -/
structure TokenD where
  text : String
  bbox : List ℚ
  span_num : Option Nat
  line_num : Option Nat
  block_num : Option Nat
deriving DecidableEq, Inhabited, Repr

/-- The "Fill missing metadata" loop of `main`: for each index `idx`, set
`span_num` to `idx` if absent, `line_num` to 0 if absent, `block_num` to 0
if absent; present fields are untouched. -/
def fillMissingMetadata (tokens : List TokenD) : List TokenD :=
  tokens.enum.map (fun e =>
    { e.2 with
      span_num := match e.2.span_num with | none => some e.1 | some v => some v
      line_num := match e.2.line_num with | none => some 0 | some v => some v
      block_num := match e.2.block_num with | none => some 0 | some v => some v })

example : classifyPage ⟨List.replicate 101 'a'⟩ 0 = (false, "Native (Text)") := by decide

example : classifyPage ⟨List.replicate 101 'a'⟩ 2 = (true, "OCR (Hybrid)") := by decide

example : classifyPage "short" 0 = (true, "OCR (Scanned)") := by decide

example : chooseZoom true 800 = 2 ∧ chooseZoom true 1500 = 1 ∧ chooseZoom false 800 = 1 := by
  decide

/-!
Helper lemmas.
-/

/-- The Boolean merge heuristics as a proposition. -/
theorem mergeCond_iff (c n : Entry) :
    mergeCond c n = true ↔
      (n.page = c.page + 1 ∧ c.df.columns.length = n.df.columns.length ∧
        c.df.columns = n.df.columns) := by
  simp [mergeCond, and_assoc]

/-- The sweep emits one artifact pair per page. -/
theorem processPdfToData_length (pages : List Page) :
    (processPdfToData pages).length = pages.length := by
  simp [processPdfToData]

/-- The page-`j` artifact of the sweep is the page-`j` artifact of the
per-page body. -/
theorem processPdfToData_getD (pages : List Page) (j : Nat) (hj : j < pages.length) :
    (processPdfToData pages).getD j default = processPage j (pages.getD j default) := by
  have h1 : j < (processPdfToData pages).length := by
    rw [processPdfToData_length]; exact hj
  rw [List.getD_eq_getElem _ _ h1, List.getD_eq_getElem _ _ hj]
  simp [processPdfToData]

/-!
The claims.
-/

/-- C1: the code's actual behaviour on the claim's two-fragment input —
two parseable entries with identical headers ["A","B"], pages 3 and 4,
row counts 2 and 3.  The claim (and the spec) say the output should be a
single table carrying page 3's filename and all 5 rows; the code instead
writes the concatenated frame into the slot of the already-passed index,
re-reads `current` from `tables_data[i]` after `i += 1`, and therefore
emits the page-4 fragment alone: one table, page 4's filename, only the
3 page-4 rows. -/
theorem mergeTwoFragments_code_eval :
    mergeCrossPageTables
      [("Page_03_Table_01.csv", "A,B\n1,2\n3,4\n"),
       ("Page_04_Table_01.csv", "A,B\n5,6\n7,8\n9,10\n")] =
    [("Page_04_Table_01.csv", "A,B\n5,6\n7,8\n9,10\n")] := by
  decide

/-- C2: the sweep takes its merge branch at position `i` (skipping the
emission of `current` and concatenating the frames) precisely when the
next entry's page is `current.page + 1`, the column counts agree, and the
ordered header lists agree; and on the two concrete non-merging inputs of
the claim — identical headers on pages 3 and 5 (gap), and headers
["A","B"] vs ["A","C"] on consecutive pages — the merger emits two
separate tables. -/
theorem mergeBranch_iff_heuristics :
    (∀ (fuel : Nat) (tables : List Entry) (i : Nat) (acc : List (String × String)),
      i + 1 < tables.length →
      mergeLoop (fuel + 1) tables i acc =
        (let c := tables.getD i default
         let n := tables.getD (i + 1) default
         if n.page = c.page + 1 ∧ c.df.columns.length = n.df.columns.length ∧
             c.df.columns = n.df.columns then
           mergeLoop fuel (tables.set i { c with df := dfConcat c.df n.df }) (i + 1) acc
         else
           mergeLoop fuel tables (i + 1) (acc ++ [(c.fname, dfToCsv c.df)]))) ∧
    mergeCrossPageTables
        [("Page_03_Table_01.csv", "A,B\n1,2\n"), ("Page_05_Table_01.csv", "A,B\n3,4\n")] =
      [("Page_03_Table_01.csv", "A,B\n1,2\n"), ("Page_05_Table_01.csv", "A,B\n3,4\n")] ∧
    mergeCrossPageTables
        [("Page_03_Table_01.csv", "A,B\n1,2\n"), ("Page_04_Table_01.csv", "A,C\n3,4\n")] =
      [("Page_03_Table_01.csv", "A,B\n1,2\n"), ("Page_04_Table_01.csv", "A,C\n3,4\n")] := by
  refine ⟨?_, by decide, by decide⟩
  intro fuel tables i acc h
  have hi : i < tables.length := Nat.lt_of_succ_lt h
  simp only [mergeLoop, if_pos hi, if_pos h]
  by_cases hc :
      (tables.getD (i + 1) default).page = (tables.getD i default).page + 1 ∧
        (tables.getD i default).df.columns.length =
          (tables.getD (i + 1) default).df.columns.length ∧
        (tables.getD i default).df.columns = (tables.getD (i + 1) default).df.columns
  · rw [if_pos ((mergeCond_iff _ _).mpr hc), if_pos hc]
  · rw [if_neg (fun hb => hc ((mergeCond_iff _ _).mp hb)), if_neg hc]

/-- Witness for C2 at a concrete two-entry list satisfying the heuristics. -/
theorem mergeBranch_iff_heuristics_witness :
    (0 + 1 <
      ([⟨"a", 3, ⟨["A", "B"], [["1", "2"]]⟩⟩,
        ⟨"b", 4, ⟨["A", "B"], [["5", "6"]]⟩⟩] : List Entry).length) ∧
    mergeLoop (0 + 1)
        [⟨"a", 3, ⟨["A", "B"], [["1", "2"]]⟩⟩, ⟨"b", 4, ⟨["A", "B"], [["5", "6"]]⟩⟩] 0 [] =
      (let c := ([⟨"a", 3, ⟨["A", "B"], [["1", "2"]]⟩⟩,
                  ⟨"b", 4, ⟨["A", "B"], [["5", "6"]]⟩⟩] : List Entry).getD 0 default
       let n := ([⟨"a", 3, ⟨["A", "B"], [["1", "2"]]⟩⟩,
                  ⟨"b", 4, ⟨["A", "B"], [["5", "6"]]⟩⟩] : List Entry).getD (0 + 1) default
       if n.page = c.page + 1 ∧ c.df.columns.length = n.df.columns.length ∧
           c.df.columns = n.df.columns then
         mergeLoop 0
           (([⟨"a", 3, ⟨["A", "B"], [["1", "2"]]⟩⟩,
              ⟨"b", 4, ⟨["A", "B"], [["5", "6"]]⟩⟩] : List Entry).set 0
             { c with df := dfConcat c.df n.df }) (0 + 1) []
       else
         mergeLoop 0
           [⟨"a", 3, ⟨["A", "B"], [["1", "2"]]⟩⟩, ⟨"b", 4, ⟨["A", "B"], [["5", "6"]]⟩⟩]
           (0 + 1) ([] ++ [(c.fname, dfToCsv c.df)])) :=
  ⟨by decide, mergeBranch_iff_heuristics.1 0 _ 0 [] (by decide)⟩

/-- C3: the classifier's decision is exactly the three-case policy — text
longer than 100 characters with no embedded image gives Native; text
longer than 100 characters with at least one image gives OCR (Hybrid);
text of at most 100 characters gives OCR (Scanned) whatever the image
count.  The three cases cover every page. -/
theorem classifyPage_policy (text : String) (imageCount : Nat) :
    (text.length > 100 ∧ imageCount = 0 →
      classifyPage text imageCount = (false, "Native (Text)")) ∧
    (text.length > 100 ∧ imageCount > 0 →
      classifyPage text imageCount = (true, "OCR (Hybrid)")) ∧
    (text.length ≤ 100 → classifyPage text imageCount = (true, "OCR (Scanned)")) := by
  refine ⟨fun h => ?_, fun h => ?_, fun h => ?_⟩ <;>
    · unfold classifyPage
      dsimp only
      split_ifs <;> first | rfl | omega

/-- Witness for C3: one page in each of the three cases. -/
theorem classifyPage_policy_witness :
    classifyPage ⟨List.replicate 101 'a'⟩ 0 = (false, "Native (Text)") ∧
    classifyPage ⟨List.replicate 101 'a'⟩ 2 = (true, "OCR (Hybrid)") ∧
    classifyPage "short" 7 = (true, "OCR (Scanned)") :=
  ⟨(classifyPage_policy ⟨List.replicate 101 'a'⟩ 0).1 (by decide),
   (classifyPage_policy ⟨List.replicate 101 'a'⟩ 2).2.1 (by decide),
   (classifyPage_policy "short" 7).2.2 (by decide)⟩

/-- C4: for the classified mode of any page, the rendering scale is 2.0
exactly when the mode requires OCR and the default raster width is below
1500 pixels, and 1.0 in every other case. -/
theorem chooseZoom_policy (text : String) (imageCount defaultWidth : Nat) :
    (chooseZoom (classifyPage text imageCount).1 defaultWidth = 2 ↔
      (classifyPage text imageCount).1 = true ∧ defaultWidth < 1500) ∧
    (chooseZoom (classifyPage text imageCount).1 defaultWidth = 1 ↔
      ¬((classifyPage text imageCount).1 = true ∧ defaultWidth < 1500)) := by
  unfold chooseZoom
  split_ifs with h
  · refine ⟨⟨fun _ => ⟨h.1, h.2⟩, fun _ => rfl⟩, ⟨fun h2 => absurd h2 (by norm_num), ?_⟩⟩
    exact fun hn => absurd ⟨h.1, h.2⟩ hn
  · refine ⟨⟨fun h2 => absurd h2 (by norm_num), fun h2 => absurd h2 h⟩, ⟨fun _ => ?_, fun _ => rfl⟩⟩
    exact fun h2 => h ⟨h2.1, h2.2⟩

/-- When no adjacent pair from position `i` onward satisfies the merge
heuristics, the sweep emits every remaining entry unchanged, in order. -/
theorem mergeLoop_no_merge :
    ∀ (fuel : Nat) (tables : List Entry) (i : Nat) (acc : List (String × String)),
      tables.length - i ≤ fuel →
      (∀ j, i ≤ j → j + 1 < tables.length →
        mergeCond (tables.getD j default) (tables.getD (j + 1) default) = false) →
      mergeLoop fuel tables i acc = acc ++ (tables.drop i).map emitEntry := by
  intro fuel
  induction fuel with
  | zero =>
    intro tables i acc hf _
    have hle : tables.length ≤ i := by omega
    simp [mergeLoop, List.drop_eq_nil_of_le hle]
  | succ fuel ih =>
    intro tables i acc hf hnm
    by_cases hi : i < tables.length
    · have hdrop := List.drop_eq_getElem_cons hi
      by_cases hnext : i + 1 < tables.length
      · have hc := hnm i le_rfl hnext
        simp only [mergeLoop, if_pos hi, if_pos hnext, hc, Bool.false_eq_true, if_false]
        rw [ih tables (i + 1) _ (by omega) (fun j hj hj2 => hnm j (by omega) hj2)]
        rw [hdrop, List.map_cons, List.getD_eq_getElem _ _ hi]
        simp [emitEntry]
      · simp only [mergeLoop, if_pos hi, if_neg hnext]
        rw [ih tables (i + 1) _ (by omega) (fun j hj hj2 => hnm j (by omega) hj2)]
        have hnil : tables.drop (i + 1) = [] := List.drop_eq_nil_of_le (by omega)
        rw [hdrop, hnil, List.map_cons, List.map_nil, List.getD_eq_getElem _ _ hi]
        simp [emitEntry]
    · have hle : tables.length ≤ i := by omega
      simp [mergeLoop, List.drop_eq_nil_of_le hle, if_neg hi]

/-- No two adjacent entries of the list satisfy the merge heuristics. -/
def noAdjMerge : List Entry → Bool
  | [] => true
  | [_] => true
  | a :: b :: rest => !mergeCond a b && noAdjMerge (b :: rest)

/-- Indexed reading of `noAdjMerge`. -/
theorem noAdjMerge_spec : ∀ (l : List Entry), noAdjMerge l = true →
    ∀ j, j + 1 < l.length → mergeCond (l.getD j default) (l.getD (j + 1) default) = false := by
  intro l
  induction l with
  | nil => intro _ j hj; simp at hj
  | cons a rest ih =>
    cases rest with
    | nil => intro _ j hj; simp at hj
    | cons b rest2 =>
      intro h j hj
      simp only [noAdjMerge, Bool.and_eq_true, Bool.not_eq_true'] at h
      cases j with
      | zero => simpa using h.1
      | succ j =>
        have := ih h.2 j (by simpa using Nat.lt_of_succ_lt_succ hj)
        simpa using this

instance : IsTotal Entry (fun a b => a.page ≤ b.page) :=
  ⟨fun a b => Nat.le_total a.page b.page⟩

instance : IsTrans Entry (fun a b => a.page ≤ b.page) :=
  ⟨fun _ _ _ => Nat.le_trans⟩

/-- C5: when no adjacent pair of the page-sorted parsed list satisfies the
merge heuristics, the merger performs no merge: its output is exactly the
parsed entries, stably sorted ascending by page, each re-emitted with its
own filename; the sorted list is a permutation of the parsed entries and
is sorted by page. -/
theorem noMerge_identity (input : List (String × String))
    (h : noAdjMerge (sortByPage (parseEntries input)) = true) :
    mergeCrossPageTables input = (sortByPage (parseEntries input)).map emitEntry ∧
    (sortByPage (parseEntries input)).Perm (parseEntries input) ∧
    List.Sorted (fun a b => a.page ≤ b.page) (sortByPage (parseEntries input)) := by
  refine ⟨?_, List.perm_insertionSort _ _, List.sorted_insertionSort _ _⟩
  unfold mergeCrossPageTables
  rw [mergeLoop_no_merge _ _ 0 [] (by omega) (fun j _ hj2 => noAdjMerge_spec _ h j hj2)]
  simp

/-- Witness for C5: two parseable fragments on pages 2 and 7 with identical
headers — no adjacent pair is mergeable, and the output re-emits both. -/
theorem noMerge_identity_witness :
    noAdjMerge (sortByPage (parseEntries
        [("Page_07_Table_01.csv", "X,Y\n7,8\n"), ("Page_02_Table_01.csv", "X,Y\n1,2\n")])) =
      true ∧
    mergeCrossPageTables
        [("Page_07_Table_01.csv", "X,Y\n7,8\n"), ("Page_02_Table_01.csv", "X,Y\n1,2\n")] =
      (sortByPage (parseEntries
        [("Page_07_Table_01.csv", "X,Y\n7,8\n"), ("Page_02_Table_01.csv", "X,Y\n1,2\n")])).map
        emitEntry ∧
    (sortByPage (parseEntries
      [("Page_07_Table_01.csv", "X,Y\n7,8\n"), ("Page_02_Table_01.csv", "X,Y\n1,2\n")])).Perm
      (parseEntries
        [("Page_07_Table_01.csv", "X,Y\n7,8\n"), ("Page_02_Table_01.csv", "X,Y\n1,2\n")]) ∧
    List.Sorted (fun a b => a.page ≤ b.page)
      (sortByPage (parseEntries
        [("Page_07_Table_01.csv", "X,Y\n7,8\n"), ("Page_02_Table_01.csv", "X,Y\n1,2\n")])) :=
  ⟨by decide, noMerge_identity _ (by decide)⟩

/-- C6: an entry whose filename does not parse to a page number, or whose
CSV text does not parse, is silently dropped — the merger's output on any
input containing such an entry equals its output with the entry removed,
and every other entry is still processed.  (The embedding is a total
function: no exception escapes.) -/
theorem unparseable_entry_dropped (pre post : List (String × String))
    (fname content : String) (h : parseEntry fname content = none) :
    mergeCrossPageTables (pre ++ (fname, content) :: post) =
      mergeCrossPageTables (pre ++ post) := by
  unfold mergeCrossPageTables
  have hpe : parseEntries (pre ++ (fname, content) :: post) = parseEntries (pre ++ post) := by
    simp [parseEntries, List.filterMap_append, List.filterMap_cons, h]
  rw [hpe]

/-- Witness for C6: a filename with no page-number segment ("Table.csv")
between two good fragments is excluded; the output is that of the two
good fragments alone. -/
theorem unparseable_entry_dropped_witness :
    parseEntry "Table.csv" "A\n1\n" = none ∧
    mergeCrossPageTables
        ([("Page_02_Table_01.csv", "A,B\n1,2\n")] ++
          ("Table.csv", "A\n1\n") :: [("Page_09_Table_01.csv", "A,B\n3,4\n")]) =
      mergeCrossPageTables
        ([("Page_02_Table_01.csv", "A,B\n1,2\n")] ++ [("Page_09_Table_01.csv", "A,B\n3,4\n")]) :=
  ⟨by decide,
   unparseable_entry_dropped [("Page_02_Table_01.csv", "A,B\n1,2\n")]
     [("Page_09_Table_01.csv", "A,B\n3,4\n")] "Table.csv" "A\n1\n" (by decide)⟩

/-- C7: when a page is classified for OCR and the OCR engine invocation
fails (the fallible-oracle outcome `none`, which the code catches and
logs), that page's token list is empty, while the document sweep still
produces one artifact per page and every other page's artifact is the
usual per-page result — the batch is not aborted. -/
theorem ocrFailure_isolated (pages : List Page) (i : Nat) (hi : i < pages.length)
    (hocr : (classifyPage (pages.getD i default).text (pages.getD i default).imageCount).1 = true)
    (hfail : (pages.getD i default).ocrResult = none) :
    ((processPdfToData pages).getD i default).words = [] ∧
    (processPdfToData pages).length = pages.length ∧
    (∀ j, j < pages.length →
      (processPdfToData pages).getD j default = processPage j (pages.getD j default)) := by
  refine ⟨?_, processPdfToData_length pages, fun j hj => processPdfToData_getD pages j hj⟩
  rw [processPdfToData_getD pages i hi]
  unfold processPage
  dsimp only
  rw [hocr, hfail]
  simp [ocrTokens]

/-- Witness for C7: a two-page document whose first page is scanned (short
text) and whose OCR invocation fails; the first artifact's token list is
empty and the second page is still processed. -/
theorem ocrFailure_isolated_witness :
    (0 < ([⟨"x", 0, 800, [], none⟩,
           ⟨"y", 0, 800, [], some [⟨"w", 1, 2, 3, 4⟩]⟩] : List Page).length) ∧
    (classifyPage (([⟨"x", 0, 800, [], none⟩,
        ⟨"y", 0, 800, [], some [⟨"w", 1, 2, 3, 4⟩]⟩] : List Page).getD 0 default).text
      (([⟨"x", 0, 800, [], none⟩,
         ⟨"y", 0, 800, [], some [⟨"w", 1, 2, 3, 4⟩]⟩] : List Page).getD 0
          default).imageCount).1 = true ∧
    (([⟨"x", 0, 800, [], none⟩,
       ⟨"y", 0, 800, [], some [⟨"w", 1, 2, 3, 4⟩]⟩] : List Page).getD 0 default).ocrResult =
      none ∧
    ((processPdfToData
        [⟨"x", 0, 800, [], none⟩,
         ⟨"y", 0, 800, [], some [⟨"w", 1, 2, 3, 4⟩]⟩]).getD 0 default).words = [] ∧
    (processPdfToData
        [⟨"x", 0, 800, [], none⟩,
         ⟨"y", 0, 800, [], some [⟨"w", 1, 2, 3, 4⟩]⟩]).length =
      ([⟨"x", 0, 800, [], none⟩,
        ⟨"y", 0, 800, [], some [⟨"w", 1, 2, 3, 4⟩]⟩] : List Page).length :=
  ⟨by decide, by decide, by decide,
   (ocrFailure_isolated _ 0 (by decide) (by decide) (by decide)).1,
   (ocrFailure_isolated _ 0 (by decide) (by decide) (by decide)).2.1⟩

/-- C8: the sweep of `process_pdf_to_data` returns exactly one artifact
pair per page of the document, in page order — independent of each page's
classified mode and of any OCR failure (both of which only affect the
content of `processPage`, applied once per page). -/
theorem artifact_count_eq_page_count (pages : List Page) :
    (processPdfToData pages).length = pages.length ∧
    (∀ i, i < pages.length →
      (processPdfToData pages).getD i default = processPage i (pages.getD i default)) :=
  ⟨processPdfToData_length pages, fun i hi => processPdfToData_getD pages i hi⟩

/-- Witness for C8 on a concrete two-page document (one Native page, one
failing OCR page). -/
theorem artifact_count_eq_page_count_witness :
    (processPdfToData
        [⟨⟨List.replicate 101 'a'⟩, 0, 800, [⟨1, 2, 3, 4, "w"⟩], some []⟩,
         ⟨"x", 0, 800, [], none⟩]).length =
      ([⟨⟨List.replicate 101 'a'⟩, 0, 800, [⟨1, 2, 3, 4, "w"⟩], some []⟩,
        ⟨"x", 0, 800, [], none⟩] : List Page).length ∧
    (1 < ([⟨⟨List.replicate 101 'a'⟩, 0, 800, [⟨1, 2, 3, 4, "w"⟩], some []⟩,
           ⟨"x", 0, 800, [], none⟩] : List Page).length) ∧
    (processPdfToData
        [⟨⟨List.replicate 101 'a'⟩, 0, 800, [⟨1, 2, 3, 4, "w"⟩], some []⟩,
         ⟨"x", 0, 800, [], none⟩]).getD 1 default =
      processPage 1
        (([⟨⟨List.replicate 101 'a'⟩, 0, 800, [⟨1, 2, 3, 4, "w"⟩], some []⟩,
           ⟨"x", 0, 800, [], none⟩] : List Page).getD 1 default) :=
  ⟨(artifact_count_eq_page_count _).1, by decide,
   (artifact_count_eq_page_count _).2 1 (by decide)⟩

/-- C9: on a page classified Native, the emitted tokens are exactly the
text-layer word boxes with every bounding-box coordinate multiplied by
the rendering scale chosen for that page, so they live in the rendered
raster's pixel space. -/
theorem nativeTokens_scaled (pageNum : Nat) (p : Page)
    (h : (classifyPage p.text p.imageCount).1 = false) :
    (processPage pageNum p).words =
      p.nativeWords.map (fun w =>
        { text := w.text,
          bbox := [w.x0 * chooseZoom (classifyPage p.text p.imageCount).1 p.defaultWidth,
                   w.y0 * chooseZoom (classifyPage p.text p.imageCount).1 p.defaultWidth,
                   w.x1 * chooseZoom (classifyPage p.text p.imageCount).1 p.defaultWidth,
                   w.y1 * chooseZoom (classifyPage p.text p.imageCount).1 p.defaultWidth] }) := by
  unfold processPage
  dsimp only
  rw [h]
  simp [nativeTokens]

/-- Witness for C9: a text-rich image-free page with one word box. -/
theorem nativeTokens_scaled_witness :
    (classifyPage (Page.text ⟨⟨List.replicate 101 'a'⟩, 0, 800, [⟨1, 2, 3, 4, "w"⟩], none⟩)
      (Page.imageCount ⟨⟨List.replicate 101 'a'⟩, 0, 800, [⟨1, 2, 3, 4, "w"⟩], none⟩)).1 =
      false ∧
    (processPage 0 ⟨⟨List.replicate 101 'a'⟩, 0, 800, [⟨1, 2, 3, 4, "w"⟩], none⟩).words =
      (Page.nativeWords ⟨⟨List.replicate 101 'a'⟩, 0, 800, [⟨1, 2, 3, 4, "w"⟩], none⟩).map
        (fun w =>
          { text := w.text,
            bbox := [w.x0 * chooseZoom (classifyPage
                       (Page.text ⟨⟨List.replicate 101 'a'⟩, 0, 800, [⟨1, 2, 3, 4, "w"⟩], none⟩)
                       (Page.imageCount
                         ⟨⟨List.replicate 101 'a'⟩, 0, 800, [⟨1, 2, 3, 4, "w"⟩], none⟩)).1
                       (Page.defaultWidth
                         ⟨⟨List.replicate 101 'a'⟩, 0, 800, [⟨1, 2, 3, 4, "w"⟩], none⟩),
                     w.y0 * chooseZoom (classifyPage
                       (Page.text ⟨⟨List.replicate 101 'a'⟩, 0, 800, [⟨1, 2, 3, 4, "w"⟩], none⟩)
                       (Page.imageCount
                         ⟨⟨List.replicate 101 'a'⟩, 0, 800, [⟨1, 2, 3, 4, "w"⟩], none⟩)).1
                       (Page.defaultWidth
                         ⟨⟨List.replicate 101 'a'⟩, 0, 800, [⟨1, 2, 3, 4, "w"⟩], none⟩),
                     w.x1 * chooseZoom (classifyPage
                       (Page.text ⟨⟨List.replicate 101 'a'⟩, 0, 800, [⟨1, 2, 3, 4, "w"⟩], none⟩)
                       (Page.imageCount
                         ⟨⟨List.replicate 101 'a'⟩, 0, 800, [⟨1, 2, 3, 4, "w"⟩], none⟩)).1
                       (Page.defaultWidth
                         ⟨⟨List.replicate 101 'a'⟩, 0, 800, [⟨1, 2, 3, 4, "w"⟩], none⟩),
                     w.y1 * chooseZoom (classifyPage
                       (Page.text ⟨⟨List.replicate 101 'a'⟩, 0, 800, [⟨1, 2, 3, 4, "w"⟩], none⟩)
                       (Page.imageCount
                         ⟨⟨List.replicate 101 'a'⟩, 0, 800, [⟨1, 2, 3, 4, "w"⟩], none⟩)).1
                       (Page.defaultWidth
                         ⟨⟨List.replicate 101 'a'⟩, 0, 800, [⟨1, 2, 3, 4, "w"⟩], none⟩)] }) :=
  ⟨by decide, nativeTokens_scaled 0 _ (by decide)⟩

/-- The fill pass keeps the token count. -/
theorem fillMissingMetadata_length (tokens : List TokenD) :
    (fillMissingMetadata tokens).length = tokens.length := by
  simp [fillMissingMetadata]

/-- C10: the metadata fill pass sets `span_num` to the token's list index
when absent, `line_num` to 0 when absent, and `block_num` to 0 when
absent; fields already present keep their values, and `text` and `bbox`
are unchanged; the token count is unchanged. -/
theorem fillMissingMetadata_policy (tokens : List TokenD) (i : Nat) (hi : i < tokens.length) :
    ((fillMissingMetadata tokens).getD i default).text = (tokens.getD i default).text ∧
    ((fillMissingMetadata tokens).getD i default).bbox = (tokens.getD i default).bbox ∧
    ((tokens.getD i default).span_num = none →
      ((fillMissingMetadata tokens).getD i default).span_num = some i) ∧
    (∀ v, (tokens.getD i default).span_num = some v →
      ((fillMissingMetadata tokens).getD i default).span_num = some v) ∧
    ((tokens.getD i default).line_num = none →
      ((fillMissingMetadata tokens).getD i default).line_num = some 0) ∧
    (∀ v, (tokens.getD i default).line_num = some v →
      ((fillMissingMetadata tokens).getD i default).line_num = some v) ∧
    ((tokens.getD i default).block_num = none →
      ((fillMissingMetadata tokens).getD i default).block_num = some 0) ∧
    (∀ v, (tokens.getD i default).block_num = some v →
      ((fillMissingMetadata tokens).getD i default).block_num = some v) ∧
    (fillMissingMetadata tokens).length = tokens.length := by
  have hlen : i < (fillMissingMetadata tokens).length := by
    rw [fillMissingMetadata_length]; exact hi
  have key : (fillMissingMetadata tokens).getD i default =
      { tokens.getD i default with
        span_num := match (tokens.getD i default).span_num with
                    | none => some i | some v => some v
        line_num := match (tokens.getD i default).line_num with
                    | none => some 0 | some v => some v
        block_num := match (tokens.getD i default).block_num with
                    | none => some 0 | some v => some v } := by
    rw [List.getD_eq_getElem _ _ hlen, List.getD_eq_getElem _ _ hi]
    simp [fillMissingMetadata]
  rw [key]
  refine ⟨rfl, rfl, ?_, ?_, ?_, ?_, ?_, ?_, fillMissingMetadata_length tokens⟩ <;>
    first
      | (intro h; rw [h])
      | (intro v h; rw [h])

/-- Witness for C10 on a two-token list: the first token has no metadata
(filled with its index and zeros), the second carries values (kept). -/
theorem fillMissingMetadata_policy_witness :
    (1 < ([⟨"a", [], none, none, none⟩, ⟨"b", [], some 5, some 6, some 7⟩] : List TokenD).length) ∧
    (([⟨"a", [], none, none, none⟩,
       ⟨"b", [], some 5, some 6, some 7⟩] : List TokenD).getD 1 default).span_num = some 5 ∧
    ((fillMissingMetadata
        [⟨"a", [], none, none, none⟩, ⟨"b", [], some 5, some 6, some 7⟩]).getD 1
          default).span_num = some 5 :=
  ⟨by decide, by decide,
   (fillMissingMetadata_policy
     [⟨"a", [], none, none, none⟩, ⟨"b", [], some 5, some 6, some 7⟩] 1 (by decide)).2.2.2.1 5
     (by decide)⟩
